import Mathlib

/-!
Shallow embedding of the ASSM real-time relay (src/server/routes.ts) and the
client call-session hook (src/client/src/hooks/useVoiceCall.ts), together with
theorems settling the frozen specification claims.

Server side: the WebSocket connection handler `wsOnMessage` mirrors the
`wss.on('connection')` message callback, `wsOnClose` mirrors the close handler,
and `isRateLimited` mirrors the rate limiter.  The `connectedClients` map is an
association list from user id to a connection id (`Nat`); truthiness of
JavaScript strings is rendered as inequality with the empty string.  Time is
`Nat` milliseconds (Date.now()).

Client side: the call state, the peer connection and the media/timer resources
are explicit record fields; asynchronous steps are flattened into pure
functions returning the new state and the list of emitted effects in order.
-/

namespace ASSM

/-- A JSON wire message, covering every field the relay or the client reads:
`type`, `token` (auth), `targetUserId`, `fromUserId`, and the opaque
`offer` / `answer` / `candidate` payloads.  Absent JSON fields are `none`. -/
structure WireMsg where
  type : String
  token : Option String := none
  targetUserId : Option String := none
  fromUserId : Option String := none
  offer : Option String := none
  answer : Option String := none
  candidate : Option String := none
  deriving Repr, DecidableEq

/-- The `connectedClients` map: identity to connection id, as an association
list with JavaScript `Map` semantics (at most one binding per key). -/
abbrev Registry := List (String × Nat)

/-- `Map.get`. -/
def regGet : Registry → String → Option Nat
  | [], _ => none
  | (k, v) :: rest, i => if k = i then some v else regGet rest i

/-- `Map.delete`: remove the binding for `k`. -/
def regErase : Registry → String → Registry
  | [], _ => []
  | p :: rest, k => if p.1 = k then regErase rest k else p :: regErase rest k

/-- `Map.set`: insert or replace the binding for `k`. -/
def regSet (reg : Registry) (k : String) (v : Nat) : Registry :=
  (k, v) :: regErase reg k

theorem regGet_erase_self (reg : Registry) (k : String) :
    regGet (regErase reg k) k = none := by
  induction reg with
  | nil => rfl
  | cons p rest ih =>
    by_cases h : p.1 = k
    · simpa [regErase, h] using ih
    · simpa [regErase, regGet, h] using ih

theorem regGet_erase_other (reg : Registry) (k k' : String) (h : k' ≠ k) :
    regGet (regErase reg k) k' = regGet reg k' := by
  induction reg with
  | nil => rfl
  | cons p rest ih =>
    by_cases hp : p.1 = k
    · have hpk : ¬ p.1 = k' := fun hc => h (by rw [← hc, hp])
      simpa [regErase, regGet, hp, hpk, h, h.symm] using ih
    · by_cases hpk : p.1 = k'
      · simp [regErase, regGet, hp, hpk, h, h.symm]
      · simpa [regErase, regGet, hp, hpk, h, h.symm] using ih

theorem regGet_set_self (reg : Registry) (k : String) (v : Nat) :
    regGet (regSet reg k v) k = some v := by
  simp [regSet, regGet]

theorem regGet_set_other (reg : Registry) (k k' : String) (v : Nat) (h : k' ≠ k) :
    regGet (regSet reg k v) k' = regGet reg k' := by
  have hne : k ≠ k' := fun hc => h hc.symm
  simp [regSet, regGet, hne]
  exact regGet_erase_other reg k k' h

/-- Per-connection mutable locals of the `wss.on('connection')` closure:
`userId` and `isAuthenticated`. -/
structure ConnLocal where
  userId : Option String := none
  isAuthenticated : Bool := false
  deriving Repr, DecidableEq

/-- A JSON message written to some client socket. -/
inductive OutMsg where
  /-- `{ type: 'auth_success' }` -/
  | authSuccess : OutMsg
  /-- `JSON.stringify({ ...message, fromUserId })`: the inbound message with
  `fromUserId` overwritten by the relay. -/
  | forwarded (m : WireMsg) : OutMsg
  /-- `{ type: 'call_error', error }` — note the field is named `error`. -/
  | callError (error : String) : OutMsg
  /-- `{ type: 'call_end', fromUserId }` -/
  | callEndMsg (fromUserId : Option String) : OutMsg
  /-- `{ type: 'user_availability', userId, available }` -/
  | userAvailability (userId : Option String) (available : Bool) : OutMsg
  deriving Repr, DecidableEq

/-- An observable action of the message handler. -/
inductive Effect where
  /-- `targetClient.send(...)` to the connection with id `conn`. -/
  | sendTo (conn : Nat) (m : OutMsg) : Effect
  /-- `ws.send(...)` back to the sender. -/
  | sendSelf (m : OutMsg) : Effect
  /-- `ws.close(code, reason)`. -/
  | close (code : Nat) (reason : String) : Effect
  deriving Repr, DecidableEq

/-- Result of one invocation of the message callback. -/
structure HandleResult where
  conn : ConnLocal
  reg : Registry
  effects : List Effect
  closed : Bool
  deriving Repr, DecidableEq

/-- The `ws.on('message')` callback of `wss.on('connection')` in
src/server/routes.ts.  `verify` models `jwt.verify` (`none` = throw),
`isOpen` models `readyState === WebSocket.OPEN`, and `selfId` is this
connection's id.  JavaScript string truthiness is `≠ ""`. -/
def wsOnMessage (verify : String → Option String) (isOpen : Nat → Bool)
    (selfId : Nat) (conn : ConnLocal) (reg : Registry) (m : WireMsg) :
    HandleResult :=
  if m.type = "auth" then
    match m.token with
    | none => ⟨conn, reg, [.close 1008 "Authentication required"], true⟩
    | some t =>
      if t = "" then ⟨conn, reg, [.close 1008 "Authentication required"], true⟩
      else
        match verify t with
        | none => ⟨conn, reg, [.close 1008 "Invalid token"], true⟩
        | some uid =>
          let conn' : ConnLocal := ⟨some uid, true⟩
          if uid ≠ "" then
            ⟨conn', regSet reg uid selfId, [.sendSelf .authSuccess], false⟩
          else
            ⟨conn', reg, [], false⟩
  else
    if conn.isAuthenticated = false then
      ⟨conn, reg, [.close 1008 "Not authenticated"], true⟩
    else
      if m.type = "call_offer" ∨ m.type = "call_answer" ∨ m.type = "ice_candidate" then
        match m.targetUserId.bind (regGet reg) with
        | some tc =>
          if isOpen tc then
            ⟨conn, reg, [.sendTo tc (.forwarded { m with fromUserId := conn.userId })], false⟩
          else
            ⟨conn, reg, [.sendSelf (.callError "User is not available")], false⟩
        | none => ⟨conn, reg, [.sendSelf (.callError "User is not available")], false⟩
      else if m.type = "call_end" then
        match m.targetUserId.bind (regGet reg) with
        | some tc =>
          if isOpen tc then ⟨conn, reg, [.sendTo tc (.callEndMsg conn.userId)], false⟩
          else ⟨conn, reg, [], false⟩
        | none => ⟨conn, reg, [], false⟩
      else if m.type = "check_user_availability" then
        let available : Bool :=
          match m.targetUserId with
          | some t => decide (t ≠ "") && (regGet reg t).isSome
          | none => false
        ⟨conn, reg, [.sendSelf (.userAvailability m.targetUserId available)], false⟩
      else
        ⟨conn, reg, [], false⟩

/-- The `ws.on('close')` handler: `if (userId) connectedClients.delete(userId)`
— an unconditional delete of the last authenticated identity. -/
def wsOnClose (conn : ConnLocal) (reg : Registry) : Registry :=
  match conn.userId with
  | some u => if u ≠ "" then regErase reg u else reg
  | none => reg

/-- State threaded through a sequence of messages on one transport. -/
structure RunState where
  conn : ConnLocal
  reg : Registry
  closed : Bool
  deriving Repr, DecidableEq

/-- One message event: once the socket has been closed the handler is never
invoked again. -/
def stepConn (verify : String → Option String) (isOpen : Nat → Bool)
    (selfId : Nat) (st : RunState) (m : WireMsg) : RunState × List Effect :=
  if st.closed then (st, [])
  else
    let r := wsOnMessage verify isOpen selfId st.conn st.reg m
    (⟨r.conn, r.reg, r.closed⟩, r.effects)

/-- Process a list of inbound messages in arrival order. -/
def runConn (verify : String → Option String) (isOpen : Nat → Bool)
    (selfId : Nat) : RunState → List WireMsg → RunState × List Effect
  | st, [] => (st, [])
  | st, m :: ms =>
    let p := stepConn verify isOpen selfId st m
    let q := runConn verify isOpen selfId p.1 ms
    (q.1, p.2 ++ q.2)

/-- An auth message the relay accepts: tag `auth`, truthy token, verification
succeeds. -/
def authAccepted (verify : String → Option String) (m : WireMsg) : Bool :=
  m.type == "auth" &&
    (match m.token with
     | some t => decide (t ≠ "") && (verify t).isSome
     | none => false)

/-- Holds exactly of a `close` effect with policy-violation code 1008. -/
def isClose1008 : Effect → Bool
  | .close c _ => c == 1008
  | _ => false

/-- An entry of the `userMessageCounts` map in src/server/routes.ts. -/
structure RateState where
  count : Nat
  resetTime : Nat
  mutedUntil : Nat
  deriving Repr, DecidableEq

/-- The `{ limited, remainingTime? }` object returned by `isRateLimited`. -/
structure RateResult where
  limited : Bool
  remainingTime : Option Nat
  deriving Repr, DecidableEq

/-- `isRateLimited(userId)` from src/server/routes.ts, as a function of the
sender's current map entry (`none` when absent) and `now = Date.now()` in
milliseconds.  Returns the result and the entry left in the map;
`Math.ceil((mutedUntil - now) / 1000)` becomes `(mutedUntil - now + 999) / 1000`
on `Nat` (the muted branch has `now < mutedUntil`). -/
def isRateLimited (userLimit : Option RateState) (now : Nat) :
    RateResult × RateState :=
  match userLimit with
  | some ul =>
    if ul.mutedUntil ≠ 0 ∧ now < ul.mutedUntil then
      (⟨true, some ((ul.mutedUntil - now + 999) / 1000)⟩, ul)
    else if now > ul.resetTime then
      (⟨false, none⟩, ⟨1, now + 60000, 0⟩)
    else if ul.count ≥ 20 then
      (⟨true, some 60⟩, ⟨0, now + 60000, now + 60000⟩)
    else
      (⟨false, none⟩, ⟨ul.count + 1, ul.resetTime, 0⟩)
  | none => (⟨false, none⟩, ⟨1, now + 60000, 0⟩)

/-- Run a sequence of rate-limit checks at the given times, threading the
per-sender map entry. -/
def runRate : Option RateState → List Nat → List RateResult × Option RateState
  | s, [] => ([], s)
  | s, t :: ts =>
    let p := isRateLimited s t
    let q := runRate (some p.2) ts
    (p.1 :: q.1, q.2)

/-! ### Client call-session model (src/client/src/hooks/useVoiceCall.ts) -/

/-- The `callType` field: `'incoming' | 'outgoing' | 'active'`
(`none` = `null`). -/
inductive CallType where
  | incoming | outgoing | active
  deriving Repr, DecidableEq

/-- The `CallState` record of useVoiceCall. -/
structure CallStateRec where
  isInCall : Bool
  callType : Option CallType
  otherUser : Option String
  isMuted : Bool
  isSpeakerOn : Bool
  callDuration : Nat
  deriving Repr, DecidableEq

/-- The initial / reset call state literal used by the hook. -/
def initialCallState : CallStateRec :=
  ⟨false, none, none, false, true, 0⟩

/-- The RTCPeerConnection resource: the two session descriptions and the
added remote ICE candidates (payloads opaque strings). -/
structure PCState where
  localDescription : Option String
  remoteDescription : Option String
  candidates : List String
  deriving Repr, DecidableEq

/-- Client-side state held in the hook's refs and React state. `pc`,
`localStream`, `audioSrc` model `peerConnectionRef`, `localStreamRef` and the
audio element's `srcObject`; `audioEl` is whether `audioRef.current` is
attached; `timerArmed` is the pending `offerCreationTimeout`; `wsUp` is
whether `wsRef.current` is non-null. -/
structure ClientState where
  callState : CallStateRec
  pc : Option PCState
  localStream : Bool
  audioEl : Bool
  audioSrc : Bool
  timerArmed : Bool
  wsUp : Bool
  deriving Repr, DecidableEq

/-- Observable client actions, in program order. -/
inductive ClientEff where
  /-- `wsRef.current.send(JSON.stringify(m))` -/
  | wsSend (m : WireMsg) : ClientEff
  /-- `localStreamRef.current.getTracks().forEach(t => t.stop())` -/
  | stopLocalTracks : ClientEff
  /-- `peerConnectionRef.current.close()` -/
  | closePeerConnection : ClientEff
  /-- `audioRef.current.pause()` and clearing `srcObject` -/
  | pauseAudio : ClientEff
  /-- `setTimeout(..., 15000)` arming the offer-creation timeout -/
  | armOfferTimer : ClientEff
  /-- `clearTimeout(offerCreationTimeout)` -/
  | clearOfferTimer : ClientEff
  /-- `alert(msg)` -/
  | alert (msg : String) : ClientEff
  deriving Repr, DecidableEq

/-- `endCall()` from useVoiceCall: stop the local stream (if held), close the
peer connection (if present), pause remote audio (if the element is
attached), best-effort send `call_end` to `callState.otherUser` (if set and
the socket is up), and reset the call state. -/
def endCall (st : ClientState) : ClientState × List ClientEff :=
  ({ st with
      callState := initialCallState
      pc := none
      localStream := false
      audioSrc := false },
    (if st.localStream then [ClientEff.stopLocalTracks] else []) ++
    (if st.pc.isSome then [ClientEff.closePeerConnection] else []) ++
    (if st.audioEl then [ClientEff.pauseAudio] else []) ++
    (match st.callState.otherUser with
     | some u =>
       if st.wsUp then
         [ClientEff.wsSend { type := "call_end", targetUserId := some u }]
       else []
     | none => []))

/-- `rejectCall()` from useVoiceCall: send `call_end` to the counterpart,
then run `endCall()`. -/
def rejectCall (st : ClientState) : ClientState × List ClientEff :=
  ((endCall st).1,
    (match st.callState.otherUser with
     | some u =>
       if st.wsUp then
         [ClientEff.wsSend { type := "call_end", targetUserId := some u }]
       else []
     | none => []) ++ (endCall st).2)

/-- `handleSignalingMessage(message, users)` from useVoiceCall.  `users` is
the roster of known user ids; the stored `otherUser` is the caller's id
whether or not the roster lookup succeeds (the fallback is the bare id). -/
def handleSignalingMessage (st : ClientState) (m : WireMsg)
    (users : List String) : ClientState × List ClientEff :=
  if m.type = "call_offer" then
    match m.fromUserId, m.offer with
    | some f, some o =>
      if f ≠ "" ∧ o ≠ "" then
        if st.callState.callType ≠ some CallType.outgoing then
          ({ st with
              pc := some ⟨none, some o, []⟩
              callState := { st.callState with
                isInCall := true
                callType := some CallType.incoming
                otherUser := some f } }, [])
        else (st, [])
      else (st, [])
    | _, _ => (st, [])
  else if m.type = "call_answer" then
    match m.answer, st.pc with
    | some a, some p =>
      if a ≠ "" then
        ({ st with pc := some { p with remoteDescription := some a } }, [])
      else (st, [])
    | _, _ => (st, [])
  else if m.type = "ice_candidate" then
    match m.candidate, st.pc with
    | some c, some p =>
      if c ≠ "" then
        ({ st with pc := some { p with candidates := p.candidates ++ [c] } }, [])
      else (st, [])
    | _, _ => (st, [])
  else if m.type = "call_end" then
    endCall st
  else if m.type = "call_error" then
    endCall st
  else
    (st, [])

/-- Connection states reported by `RTCPeerConnection.connectionState`. -/
inductive PCConnState where
  | connected | disconnected | failed | otherState
  deriving Repr, DecidableEq

/-- The `onconnectionstatechange` handler installed by
`initializePeerConnection`: `'connected'` forces `callType = 'active'`;
`'disconnected'` and `'failed'` run `endCall()`. -/
def onConnectionStateChange (st : ClientState) (cs : PCConnState) :
    ClientState × List ClientEff :=
  match cs with
  | .connected =>
    ({ st with callState := { st.callState with callType := some CallType.active } }, [])
  | .disconnected => endCall st
  | .failed => endCall st
  | .otherState => (st, [])

/-- The success path of `startCall(user)` from useVoiceCall: availability
check answered `true`, microphone granted, offer created promptly.  In program
order: send `check_user_availability`; acquire the microphone stream;
initialize the peer connection; arm the 15-second `offerCreationTimeout`;
create and set the local offer; clear the timeout; send `call_offer`; set the
call state to outgoing. -/
def startCallSuccess (st : ClientState) (target : String) (offer : String) :
    ClientState × List ClientEff :=
  let eAvail :=
    if st.wsUp then
      [ClientEff.wsSend { type := "check_user_availability", targetUserId := some target }]
    else []
  let eOffer :=
    if st.wsUp then
      [ClientEff.wsSend { type := "call_offer", targetUserId := some target, offer := some offer }]
    else []
  ({ st with
      localStream := true
      pc := some ⟨some offer, none, []⟩
      timerArmed := false
      callState := ⟨true, some CallType.outgoing, some target, false, true, 0⟩ },
    eAvail ++ [ClientEff.armOfferTimer, ClientEff.clearOfferTimer] ++ eOffer)

/-- The `offerCreationTimeout` callback: `endCall()` then
`alert('Call setup timed out. Please try again.')`. -/
def offerTimerFire (st : ClientState) : ClientState × List ClientEff :=
  let p := endCall st
  (p.1, p.2 ++ [ClientEff.alert "Call setup timed out. Please try again."])

/-- Recognize a `call_end` sent over the socket. -/
def isCallEndSend : ClientEff → Bool
  | .wsSend m => m.type == "call_end"
  | _ => false

/-- Number of `call_end` messages sent in an effect trace. -/
def countCallEnd (l : List ClientEff) : Nat :=
  (l.filter isCallEndSend).length

/-! ### Helper lemmas -/

theorem runConn_closed (verify : String → Option String) (isOpen : Nat → Bool)
    (selfId : Nat) (st : RunState) (h : st.closed = true) (ms : List WireMsg) :
    runConn verify isOpen selfId st ms = (st, []) := by
  induction ms with
  | nil => rfl
  | cons m ms ih => simp [runConn, stepConn, h, ih]

theorem wsOnMessage_auth_rejected (verify : String → Option String)
    (isOpen : Nat → Bool) (selfId : Nat) (conn : ConnLocal) (reg : Registry)
    (p : WireMsg) (hty : p.type = "auth") (hacc : authAccepted verify p = false) :
    ∃ reason, wsOnMessage verify isOpen selfId conn reg p =
      ⟨conn, reg, [.close 1008 reason], true⟩ := by
  cases htok : p.token with
  | none => exact ⟨"Authentication required", by simp [wsOnMessage, hty, htok]⟩
  | some t =>
    by_cases ht : t = ""
    · exact ⟨"Authentication required", by simp [wsOnMessage, hty, htok, ht]⟩
    · cases hv : verify t with
      | none => exact ⟨"Invalid token", by simp [wsOnMessage, hty, htok, ht, hv]⟩
      | some uid =>
        exfalso
        simp [authAccepted, hty, htok, ht, hv] at hacc

/-! ### Claims -/

/-- C1: on a fresh transport, if a message whose tag is not `auth` arrives
before any auth message has been accepted (every earlier message is an auth
the relay rejects), the relay closes the transport with policy-violation code
1008, the registry is untouched, every emitted effect is a close with code
1008 (in particular nothing is ever forwarded to any registered client), and
the messages after the offending one are never processed: the run equals the
run that stops at the offending message. -/
theorem c1_preauth_fail_closed
    (verify : String → Option String) (isOpen : Nat → Bool) (selfId : Nat)
    (reg : Registry) (preMsgs : List WireMsg) (m : WireMsg) (rest : List WireMsg)
    (hpre : ∀ p ∈ preMsgs, p.type = "auth" ∧ authAccepted verify p = false)
    (hm : m.type ≠ "auth") :
    (runConn verify isOpen selfId ⟨⟨none, false⟩, reg, false⟩ (preMsgs ++ m :: rest)).1.closed = true ∧
    (runConn verify isOpen selfId ⟨⟨none, false⟩, reg, false⟩ (preMsgs ++ m :: rest)).1.reg = reg ∧
    (runConn verify isOpen selfId ⟨⟨none, false⟩, reg, false⟩ (preMsgs ++ m :: rest)).2 ≠ [] ∧
    (runConn verify isOpen selfId ⟨⟨none, false⟩, reg, false⟩ (preMsgs ++ m :: rest)).2.all isClose1008 = true ∧
    runConn verify isOpen selfId ⟨⟨none, false⟩, reg, false⟩ (preMsgs ++ m :: rest) =
      runConn verify isOpen selfId ⟨⟨none, false⟩, reg, false⟩ (preMsgs ++ [m]) := by
  cases preMsgs with
  | nil =>
    have hstep : wsOnMessage verify isOpen selfId ⟨none, false⟩ reg m =
        ⟨⟨none, false⟩, reg, [.close 1008 "Not authenticated"], true⟩ := by
      simp [wsOnMessage, hm]
    simp [runConn, stepConn, hstep, runConn_closed, isClose1008]
  | cons p ps =>
    obtain ⟨hty, hacc⟩ := hpre p (List.mem_cons_self p ps)
    obtain ⟨reason, hstep⟩ :=
      wsOnMessage_auth_rejected verify isOpen selfId ⟨none, false⟩ reg p hty hacc
    simp [runConn, stepConn, hstep, runConn_closed, isClose1008]

/-- Witness for C1 at a concrete input: an unauthenticated transport sends a
`call_offer` first. -/
theorem c1_preauth_fail_closed_witness :
    (WireMsg.type { type := "call_offer", targetUserId := some "u2" } ≠ "auth") ∧
    ((runConn (fun _ => none) (fun _ => false) 0 ⟨⟨none, false⟩, [("u2", 7)], false⟩
        ([] ++ ({ type := "call_offer", targetUserId := some "u2" } : WireMsg) ::
          [{ type := "call_end", targetUserId := some "u2" }])).1.closed = true ∧
      (runConn (fun _ => none) (fun _ => false) 0 ⟨⟨none, false⟩, [("u2", 7)], false⟩
        ([] ++ ({ type := "call_offer", targetUserId := some "u2" } : WireMsg) ::
          [{ type := "call_end", targetUserId := some "u2" }])).1.reg = [("u2", 7)] ∧
      (runConn (fun _ => none) (fun _ => false) 0 ⟨⟨none, false⟩, [("u2", 7)], false⟩
        ([] ++ ({ type := "call_offer", targetUserId := some "u2" } : WireMsg) ::
          [{ type := "call_end", targetUserId := some "u2" }])).2 ≠ [] ∧
      (runConn (fun _ => none) (fun _ => false) 0 ⟨⟨none, false⟩, [("u2", 7)], false⟩
        ([] ++ ({ type := "call_offer", targetUserId := some "u2" } : WireMsg) ::
          [{ type := "call_end", targetUserId := some "u2" }])).2.all isClose1008 = true ∧
      runConn (fun _ => none) (fun _ => false) 0 ⟨⟨none, false⟩, [("u2", 7)], false⟩
        ([] ++ ({ type := "call_offer", targetUserId := some "u2" } : WireMsg) ::
          [{ type := "call_end", targetUserId := some "u2" }]) =
        runConn (fun _ => none) (fun _ => false) 0 ⟨⟨none, false⟩, [("u2", 7)], false⟩
          ([] ++ [{ type := "call_offer", targetUserId := some "u2" }])) := by
  refine ⟨by decide, ?_⟩
  exact c1_preauth_fail_closed (fun _ => none) (fun _ => false) 0 [("u2", 7)] []
    { type := "call_offer", targetUserId := some "u2" }
    [{ type := "call_end", targetUserId := some "u2" }]
    (by simp) (by decide)

/-- C2: the relay stamps `fromUserId` from the authenticated sender and never
trusts client input: replacing the client-supplied `fromUserId` of an inbound
message changes nothing about the handler's output, and every forwarded
message carries `fromUserId` equal to the sender's authenticated identity. -/
theorem c2_fromUserId_stamped
    (verify : String → Option String) (isOpen : Nat → Bool) (selfId : Nat)
    (conn : ConnLocal) (reg : Registry) (m : WireMsg) (f : Option String)
    (u : String) (hauth : conn.isAuthenticated = true) (hu : conn.userId = some u)
    (tc : Nat) (fm : WireMsg)
    (hmem : Effect.sendTo tc (OutMsg.forwarded fm) ∈
      (wsOnMessage verify isOpen selfId conn reg m).effects) :
    wsOnMessage verify isOpen selfId conn reg { m with fromUserId := f } =
      wsOnMessage verify isOpen selfId conn reg m ∧
    fm.fromUserId = some u := by
  constructor
  · cases m
    rfl
  · simp only [wsOnMessage, hauth] at hmem
    split at hmem
    · split at hmem
      · simp at hmem
      · split at hmem
        · simp at hmem
        · split at hmem
          · simp at hmem
          · split at hmem <;> simp at hmem
    · split at hmem
      · simp at hmem
      · split at hmem
        · split at hmem
          · split at hmem
            · simp at hmem
              have : fm = { m with fromUserId := conn.userId } := hmem.2
              rw [this]
              simpa using hu
            · simp at hmem
          · simp at hmem
        · split at hmem
          · split at hmem
            · split at hmem <;> simp at hmem
            · simp at hmem
          · split at hmem <;> simp at hmem

/-- Witness for C2 at a concrete input: an authenticated `u1` forwards a
`call_offer` carrying a forged `fromUserId`. -/
theorem c2_fromUserId_stamped_witness :
    wsOnMessage (fun _ => none) (fun _ => true) 1 ⟨some "u1", true⟩ [("u2", 7)]
        { type := "call_offer", targetUserId := some "u2",
          fromUserId := some "victim", offer := some "O" } =
      wsOnMessage (fun _ => none) (fun _ => true) 1 ⟨some "u1", true⟩ [("u2", 7)]
        { type := "call_offer", targetUserId := some "u2",
          fromUserId := some "forged", offer := some "O" } ∧
    WireMsg.fromUserId
        { type := "call_offer", targetUserId := some "u2",
          fromUserId := some "u1", offer := some "O" } = some "u1" :=
  c2_fromUserId_stamped (fun _ => none) (fun _ => true) 1 ⟨some "u1", true⟩
    [("u2", 7)]
    { type := "call_offer", targetUserId := some "u2",
      fromUserId := some "forged", offer := some "O" }
    (some "victim") "u1" rfl rfl 7
    { type := "call_offer", targetUserId := some "u2",
      fromUserId := some "u1", offer := some "O" }
    (by decide)

/-- C3 counterexample: identity `"i"` is registered by connection 1, then
re-registered by the newer connection 2; the close handler of the older
transport (whose `userId` is still `"i"`) evicts the newer entry, so lookup
returns `none` rather than the newer connection. -/
theorem c3_counterexample :
    regGet (regSet (regSet [] "i" 1) "i" 2) "i" = some 2 ∧
    regGet (wsOnClose ⟨some "i", true⟩ (regSet (regSet [] "i" 1) "i" 2)) "i" = none := by
  constructor
  · rfl
  · rfl

/-- C3 (amended): `ws.on('close')` deletes the registry entry for the
connection's last authenticated identity unconditionally — it does not check
that the entry still refers to the closing connection, so a newer
registration of the same identity is evicted as well. -/
theorem c3_close_unconditional (conn : ConnLocal) (reg : Registry) (u : String)
    (hu : conn.userId = some u) (hne : u ≠ "") :
    regGet (wsOnClose conn reg) u = none := by
  simp [wsOnClose, hu, hne, regGet_erase_self]

/-- Witness for the amended C3 at a concrete input. -/
theorem c3_close_unconditional_witness :
    regGet (wsOnClose ⟨some "u1", true⟩ [("u1", 5)]) "u1" = none :=
  c3_close_unconditional ⟨some "u1", true⟩ [("u1", 5)] "u1" rfl (by decide)

theorem runRate_window (R : Nat) (c : Nat) (ts : List Nat)
    (hts : ∀ t ∈ ts, t ≤ R) (hc : 1 ≤ c) (hlen : c + ts.length ≤ 20) :
    runRate (some ⟨c, R, 0⟩) ts =
      (List.replicate ts.length ⟨false, none⟩, some ⟨c + ts.length, R, 0⟩) := by
  induction ts generalizing c with
  | nil => simp [runRate]
  | cons t ts ih =>
    rw [List.length_cons] at hlen
    have hT : t ≤ R := hts t (List.mem_cons_self t ts)
    have hc20 : ¬ c ≥ 20 := by omega
    have hnr : ¬ t > R := by omega
    have hrec := ih (c + 1) (fun t' ht' => hts t' (List.mem_cons_of_mem t ht'))
      (by omega) (by omega)
    have hx : c + 1 + ts.length = c + (ts.length + 1) := by omega
    simp only [runRate, isRateLimited]
    rw [if_neg (by simp), if_neg hnr, if_neg hc20, hrec]
    simp [List.replicate_succ, hx]

/-- C4: starting with no rate-limit state, 20 checks inside one 60-second
window are all accepted and leave `count = 20`; the 21st check in the window
is rejected with `remaining = 60` and sets `mutedUntil = now + 60s`,
`count = 0`; every check strictly before `mutedUntil` is rejected with the
ceiling of the remaining milliseconds in seconds and leaves the state
unchanged; and the first check at or after `mutedUntil` is accepted and
resets `count` to 1. -/
theorem c4_rate_limiter
    (t1 : Nat) (ts : List Nat) (hlen : ts.length = 19)
    (hts : ∀ t ∈ ts, t ≤ t1 + 60000)
    (t21 : Nat) (h21 : t21 ≤ t1 + 60000)
    (tm : Nat) (htm : tm < t21 + 60000)
    (ta : Nat) (hta : t21 + 60000 ≤ ta) :
    (runRate none (t1 :: ts)).1 = List.replicate 20 ⟨false, none⟩ ∧
    (runRate none (t1 :: ts)).2 = some ⟨20, t1 + 60000, 0⟩ ∧
    isRateLimited (some ⟨20, t1 + 60000, 0⟩) t21 =
      (⟨true, some 60⟩, ⟨0, t21 + 60000, t21 + 60000⟩) ∧
    isRateLimited (some ⟨0, t21 + 60000, t21 + 60000⟩) tm =
      (⟨true, some ((t21 + 60000 - tm + 999) / 1000)⟩, ⟨0, t21 + 60000, t21 + 60000⟩) ∧
    (isRateLimited (some ⟨0, t21 + 60000, t21 + 60000⟩) ta).1 = ⟨false, none⟩ ∧
    (isRateLimited (some ⟨0, t21 + 60000, t21 + 60000⟩) ta).2.count = 1 := by
  have hwin := runRate_window (t1 + 60000) 1 ts hts (by omega) (by omega)
  have hfirst : runRate none (t1 :: ts) =
      ((⟨false, none⟩ : RateResult) :: (runRate (some ⟨1, t1 + 60000, 0⟩) ts).1,
        (runRate (some ⟨1, t1 + 60000, 0⟩) ts).2) := by
    simp [runRate, isRateLimited]
  refine ⟨?_, ?_, ?_, ?_, ?_, ?_⟩
  · rw [hfirst, hwin]
    simp [hlen, List.replicate_succ]
  · rw [hfirst, hwin]
    simp [hlen]
  · have h1 : ¬ t21 > t1 + 60000 := by omega
    simp [isRateLimited, h1]
  · have h0 : t21 + 60000 ≠ 0 := by omega
    simp [isRateLimited, h0, htm]
  · have hlt : ¬ ta < t21 + 60000 := by omega
    by_cases hgt : ta > t21 + 60000 <;> simp [isRateLimited, hlt, hgt]
  · have hlt : ¬ ta < t21 + 60000 := by omega
    by_cases hgt : ta > t21 + 60000 <;> simp [isRateLimited, hlt, hgt]

/-- Witness for C4 at a concrete input: 20 checks at time 0, the 21st at
time 0, a muted check at time 59999, and the first check after the mute at
time 60000. -/
theorem c4_rate_limiter_witness :
    (runRate none (0 :: List.replicate 19 0)).1 = List.replicate 20 ⟨false, none⟩ ∧
    (runRate none (0 :: List.replicate 19 0)).2 = some ⟨20, 0 + 60000, 0⟩ ∧
    isRateLimited (some ⟨20, 0 + 60000, 0⟩) 0 =
      (⟨true, some 60⟩, ⟨0, 0 + 60000, 0 + 60000⟩) ∧
    isRateLimited (some ⟨0, 0 + 60000, 0 + 60000⟩) 59999 =
      (⟨true, some ((0 + 60000 - 59999 + 999) / 1000)⟩, ⟨0, 0 + 60000, 0 + 60000⟩) ∧
    (isRateLimited (some ⟨0, 0 + 60000, 0 + 60000⟩) 60000).1 = ⟨false, none⟩ ∧
    (isRateLimited (some ⟨0, 0 + 60000, 0 + 60000⟩) 60000).2.count = 1 :=
  c4_rate_limiter 0 (List.replicate 19 0) rfl (by decide) 0 (by decide)
    59999 (by decide) 60000 (by decide)

/-- C5 counterexample: the "target offline" reply is
`{ type: 'call_error', error: 'User is not available' }` — there is no
`reason` field and the text is not `"unavailable"`. -/
theorem c5_counterexample :
    (wsOnMessage (fun _ => none) (fun _ => false) 1 ⟨some "u1", true⟩ []
        { type := "call_offer", targetUserId := some "u2", offer := some "O" }).effects =
      [Effect.sendSelf (OutMsg.callError "User is not available")] ∧
    "User is not available" ≠ "unavailable" := by
  constructor
  · rfl
  · decide

/-- C5 (amended): for an authenticated sender and an inbound `call_offer`,
`call_answer` or `ice_candidate`, the relay forwards the message (with
`fromUserId` stamped) to the registered target connection when it exists and
is open, and otherwise replies to the sender with a `call_error` whose
`error` field is `"User is not available"`; the registry and connection
state are unchanged. -/
theorem c5_signaling_routing
    (verify : String → Option String) (isOpen : Nat → Bool) (selfId : Nat)
    (conn : ConnLocal) (reg : Registry) (m : WireMsg)
    (hauth : conn.isAuthenticated = true)
    (hty : m.type = "call_offer" ∨ m.type = "call_answer" ∨ m.type = "ice_candidate") :
    (wsOnMessage verify isOpen selfId conn reg m).effects =
      (match m.targetUserId.bind (regGet reg) with
       | some tc =>
         if isOpen tc then
           [Effect.sendTo tc (.forwarded { m with fromUserId := conn.userId })]
         else [Effect.sendSelf (.callError "User is not available")]
       | none => [Effect.sendSelf (.callError "User is not available")]) ∧
    (wsOnMessage verify isOpen selfId conn reg m).conn = conn ∧
    (wsOnMessage verify isOpen selfId conn reg m).reg = reg ∧
    (wsOnMessage verify isOpen selfId conn reg m).closed = false := by
  rcases hty with h | h | h <;>
  · cases hb : m.targetUserId.bind (regGet reg) with
    | none => simp [wsOnMessage, h, hauth, hb]
    | some tc =>
      by_cases ho : isOpen tc <;> simp [wsOnMessage, h, hauth, hb, ho]

/-- Witness for the amended C5 at a concrete input with the target online. -/
theorem c5_signaling_routing_witness :
    (wsOnMessage (fun _ => none) (fun _ => true) 1 ⟨some "u1", true⟩ [("u2", 7)]
        { type := "call_offer", targetUserId := some "u2", offer := some "O" }).effects =
      (match WireMsg.targetUserId
          { type := "call_offer", targetUserId := some "u2", offer := some "O" }
          |>.bind (regGet [("u2", 7)]) with
       | some tc =>
         if (fun _ => true : Nat → Bool) tc then
           [Effect.sendTo tc (.forwarded
             { { type := "call_offer", targetUserId := some "u2", offer := some "O" : WireMsg }
               with fromUserId := ConnLocal.userId ⟨some "u1", true⟩ })]
         else [Effect.sendSelf (.callError "User is not available")]
       | none => [Effect.sendSelf (.callError "User is not available")]) ∧
    (wsOnMessage (fun _ => none) (fun _ => true) 1 ⟨some "u1", true⟩ [("u2", 7)]
        { type := "call_offer", targetUserId := some "u2", offer := some "O" }).conn =
      ⟨some "u1", true⟩ ∧
    (wsOnMessage (fun _ => none) (fun _ => true) 1 ⟨some "u1", true⟩ [("u2", 7)]
        { type := "call_offer", targetUserId := some "u2", offer := some "O" }).reg =
      [("u2", 7)] ∧
    (wsOnMessage (fun _ => none) (fun _ => true) 1 ⟨some "u1", true⟩ [("u2", 7)]
        { type := "call_offer", targetUserId := some "u2", offer := some "O" }).closed =
      false :=
  c5_signaling_routing (fun _ => none) (fun _ => true) 1 ⟨some "u1", true⟩
    [("u2", 7)] { type := "call_offer", targetUserId := some "u2", offer := some "O" }
    rfl (Or.inl rfl)

/-- C10: an already-authenticated transport that sends a second valid auth
for a different user id is registered under the new identity while the old
identity's entry stays in place pointing at the same transport; closing the
transport removes only the most recent identity, leaving the previous
identity's entry referring to the closed connection. -/
theorem c10_reauth_stale_entry
    (verify : String → Option String) (isOpen : Nat → Bool) (selfId : Nat)
    (reg : Registry) (u1 u2 t : String)
    (hreg : regGet reg u1 = some selfId)
    (ht : t ≠ "") (hv : verify t = some u2)
    (hne : u2 ≠ u1) (hne2 : u2 ≠ "") :
    (wsOnMessage verify isOpen selfId ⟨some u1, true⟩ reg
        { type := "auth", token := some t }).conn = ⟨some u2, true⟩ ∧
    regGet (wsOnMessage verify isOpen selfId ⟨some u1, true⟩ reg
        { type := "auth", token := some t }).reg u2 = some selfId ∧
    regGet (wsOnMessage verify isOpen selfId ⟨some u1, true⟩ reg
        { type := "auth", token := some t }).reg u1 = some selfId ∧
    regGet (wsOnClose
        (wsOnMessage verify isOpen selfId ⟨some u1, true⟩ reg
          { type := "auth", token := some t }).conn
        (wsOnMessage verify isOpen selfId ⟨some u1, true⟩ reg
          { type := "auth", token := some t }).reg) u2 = none ∧
    regGet (wsOnClose
        (wsOnMessage verify isOpen selfId ⟨some u1, true⟩ reg
          { type := "auth", token := some t }).conn
        (wsOnMessage verify isOpen selfId ⟨some u1, true⟩ reg
          { type := "auth", token := some t }).reg) u1 = some selfId := by
  have hr : wsOnMessage verify isOpen selfId ⟨some u1, true⟩ reg
      { type := "auth", token := some t } =
      ⟨⟨some u2, true⟩, regSet reg u2 selfId, [.sendSelf .authSuccess], false⟩ := by
    simp [wsOnMessage, ht, hv, hne2]
  have hu12 : u1 ≠ u2 := fun hh => hne hh.symm
  refine ⟨by rw [hr], ?_, ?_, ?_, ?_⟩
  · rw [hr]
    exact regGet_set_self reg u2 selfId
  · rw [hr]
    rw [regGet_set_other reg u2 u1 selfId hu12]
    exact hreg
  · rw [hr]
    simp only [wsOnClose, hne2, if_pos]
    simpa [hne2] using regGet_erase_self (regSet reg u2 selfId) u2
  · rw [hr]
    simp only [wsOnClose]
    rw [if_pos hne2]
    rw [regGet_erase_other (regSet reg u2 selfId) u2 u1 hu12]
    rw [regGet_set_other reg u2 u1 selfId hu12]
    exact hreg

/-- Witness for C10 at a concrete input. -/
theorem c10_reauth_stale_entry_witness :
    (wsOnMessage (fun s => if s = "tok" then some "u2" else none) (fun _ => true) 3
        ⟨some "u1", true⟩ [("u1", 3)] { type := "auth", token := some "tok" }).conn = ⟨some "u2", true⟩ ∧
    regGet (wsOnMessage (fun s => if s = "tok" then some "u2" else none) (fun _ => true) 3
        ⟨some "u1", true⟩ [("u1", 3)] { type := "auth", token := some "tok" }).reg "u2" = some 3 ∧
    regGet (wsOnMessage (fun s => if s = "tok" then some "u2" else none) (fun _ => true) 3
        ⟨some "u1", true⟩ [("u1", 3)] { type := "auth", token := some "tok" }).reg "u1" = some 3 ∧
    regGet (wsOnClose
        (wsOnMessage (fun s => if s = "tok" then some "u2" else none) (fun _ => true) 3
          ⟨some "u1", true⟩ [("u1", 3)] { type := "auth", token := some "tok" }).conn
        (wsOnMessage (fun s => if s = "tok" then some "u2" else none) (fun _ => true) 3
          ⟨some "u1", true⟩ [("u1", 3)] { type := "auth", token := some "tok" }).reg) "u2" = none ∧
    regGet (wsOnClose
        (wsOnMessage (fun s => if s = "tok" then some "u2" else none) (fun _ => true) 3
          ⟨some "u1", true⟩ [("u1", 3)] { type := "auth", token := some "tok" }).conn
        (wsOnMessage (fun s => if s = "tok" then some "u2" else none) (fun _ => true) 3
          ⟨some "u1", true⟩ [("u1", 3)] { type := "auth", token := some "tok" }).reg) "u1" = some 3 :=
  c10_reauth_stale_entry (fun s => if s = "tok" then some "u2" else none)
    (fun _ => true) 3 [("u1", 3)] "u1" "u2" "tok" rfl (by decide) rfl
    (by decide) (by decide)

theorem countCallEnd_append (l1 l2 : List ClientEff) :
    countCallEnd (l1 ++ l2) = countCallEnd l1 + countCallEnd l2 := by
  simp [countCallEnd, List.filter_append]

theorem countCallEnd_ite_single (c : Prop) [Decidable c] (e : ClientEff)
    (he : isCallEndSend e = false) :
    countCallEnd (if c then [e] else []) = 0 := by
  split <;> simp [countCallEnd, he]

theorem countCallEnd_nil : countCallEnd [] = 0 := rfl

theorem countCallEnd_callEnd_single (u : String) :
    countCallEnd [ClientEff.wsSend { type := "call_end", targetUserId := some u }] = 1 := rfl

theorem countCallEnd_cons_callEnd (u : String) (l : List ClientEff) :
    countCallEnd
      (ClientEff.wsSend { type := "call_end", targetUserId := some u } :: l) =
      1 + countCallEnd l := by
  simp [countCallEnd, List.filter_cons, isCallEndSend]
  omega

/-- C6 counterexample: with an outgoing call pending, an inbound
`call_answer` leaves `callType` at `outgoing` — the handler does not
transition the session to the active state. -/
theorem c6_counterexample :
    (handleSignalingMessage
        ⟨⟨true, some CallType.outgoing, some "u2", false, true, 0⟩,
          some ⟨some "O", none, []⟩, true, true, false, false, true⟩
        { type := "call_answer", fromUserId := some "u2", answer := some "A" }
        []).1.callState.callType = some CallType.outgoing ∧
    some CallType.outgoing ≠ some CallType.active := by
  exact ⟨rfl, by decide⟩

/-- C6 (amended): an inbound `call_answer` with a peer connection present
only sets the remote description; the call state (in particular `callType`)
is unchanged and no effect is emitted — there is no offer timer left to
cancel at this point, and the transition to `active` happens separately,
when `onconnectionstatechange` reports `connected`. -/
theorem c6_answer_sets_remote_only
    (st : ClientState) (p : PCState) (m : WireMsg) (users : List String)
    (a : String) (hpc : st.pc = some p) (hty : m.type = "call_answer")
    (ha : m.answer = some a) (hane : a ≠ "") :
    handleSignalingMessage st m users =
      ({ st with pc := some { p with remoteDescription := some a } }, []) ∧
    (handleSignalingMessage st m users).1.callState = st.callState ∧
    onConnectionStateChange st PCConnState.connected =
      ({ st with callState := { st.callState with callType := some CallType.active } }, []) := by
  have h1 : handleSignalingMessage st m users =
      ({ st with pc := some { p with remoteDescription := some a } }, []) := by
    simp [handleSignalingMessage, hty, ha, hpc, hane]
  exact ⟨h1, by rw [h1], rfl⟩

/-- Witness for the amended C6 at a concrete input. -/
theorem c6_answer_sets_remote_only_witness :
    handleSignalingMessage
        ⟨⟨true, some CallType.outgoing, some "u2", false, true, 0⟩,
          some ⟨some "O", none, []⟩, true, true, false, false, true⟩
        { type := "call_answer", fromUserId := some "u2", answer := some "A" } [] =
      ({ (⟨⟨true, some CallType.outgoing, some "u2", false, true, 0⟩,
            some ⟨some "O", none, []⟩, true, true, false, false, true⟩ : ClientState)
          with pc := some { (⟨some "O", none, []⟩ : PCState)
            with remoteDescription := some "A" } }, []) ∧
    (handleSignalingMessage
        ⟨⟨true, some CallType.outgoing, some "u2", false, true, 0⟩,
          some ⟨some "O", none, []⟩, true, true, false, false, true⟩
        { type := "call_answer", fromUserId := some "u2", answer := some "A" }
        []).1.callState =
      ClientState.callState
        ⟨⟨true, some CallType.outgoing, some "u2", false, true, 0⟩,
          some ⟨some "O", none, []⟩, true, true, false, false, true⟩ ∧
    onConnectionStateChange
        ⟨⟨true, some CallType.outgoing, some "u2", false, true, 0⟩,
          some ⟨some "O", none, []⟩, true, true, false, false, true⟩
        PCConnState.connected =
      ({ (⟨⟨true, some CallType.outgoing, some "u2", false, true, 0⟩,
            some ⟨some "O", none, []⟩, true, true, false, false, true⟩ : ClientState)
          with callState := { (⟨true, some CallType.outgoing, some "u2", false, true, 0⟩ : CallStateRec)
            with callType := some CallType.active } }, []) :=
  c6_answer_sets_remote_only
    ⟨⟨true, some CallType.outgoing, some "u2", false, true, 0⟩,
      some ⟨some "O", none, []⟩, true, true, false, false, true⟩
    ⟨some "O", none, []⟩
    { type := "call_answer", fromUserId := some "u2", answer := some "A" }
    [] "A" rfl rfl rfl (by decide)

/-- C7 counterexample: on the successful `startCall` path the 15-second
timeout is armed and cleared during offer creation, strictly before the
`call_offer` is sent; the state that waits for the answer (`callType =
outgoing`) has no armed timer, so no timeout can abort an unanswered
outgoing call 15 seconds after the offer is sent. -/
theorem c7_counterexample :
    (startCallSuccess ⟨initialCallState, none, false, true, false, false, true⟩
        "u2" "O").2 =
      [ClientEff.wsSend { type := "check_user_availability", targetUserId := some "u2" },
       ClientEff.armOfferTimer, ClientEff.clearOfferTimer,
       ClientEff.wsSend { type := "call_offer", targetUserId := some "u2", offer := some "O" }] ∧
    (startCallSuccess ⟨initialCallState, none, false, true, false, false, true⟩
        "u2" "O").1.timerArmed = false ∧
    (startCallSuccess ⟨initialCallState, none, false, true, false, false, true⟩
        "u2" "O").1.callState.callType = some CallType.outgoing := by
  exact ⟨rfl, rfl, rfl⟩

/-- C7 (amended): the 15-second timer guards offer creation only: it is
armed before `createOffer` and cleared immediately after
`setLocalDescription`, before the `call_offer` is sent, so the outgoing
pending state holds no armed timer; if the timer does fire (offer creation
exceeding 15s), the session runs `endCall` and alerts
"Call setup timed out. Please try again.". An unanswered outgoing call is
never timed out after the offer is sent. -/
theorem c7_offer_timer_scope
    (st : ClientState) (target offer : String) (hws : st.wsUp = true) :
    (startCallSuccess st target offer).1.timerArmed = false ∧
    (startCallSuccess st target offer).1.callState.callType = some CallType.outgoing ∧
    (startCallSuccess st target offer).2 =
      [ClientEff.wsSend { type := "check_user_availability", targetUserId := some target },
       ClientEff.armOfferTimer, ClientEff.clearOfferTimer,
       ClientEff.wsSend { type := "call_offer", targetUserId := some target, offer := some offer }] ∧
    offerTimerFire st =
      ((endCall st).1, (endCall st).2 ++ [ClientEff.alert "Call setup timed out. Please try again."]) := by
  refine ⟨rfl, rfl, ?_, rfl⟩
  simp [startCallSuccess, hws]

/-- Witness for the amended C7 at a concrete input. -/
theorem c7_offer_timer_scope_witness :
    (startCallSuccess ⟨initialCallState, none, false, true, false, false, true⟩
        "u2" "O").1.timerArmed = false ∧
    (startCallSuccess ⟨initialCallState, none, false, true, false, false, true⟩
        "u2" "O").1.callState.callType = some CallType.outgoing ∧
    (startCallSuccess ⟨initialCallState, none, false, true, false, false, true⟩
        "u2" "O").2 =
      [ClientEff.wsSend { type := "check_user_availability", targetUserId := some "u2" },
       ClientEff.armOfferTimer, ClientEff.clearOfferTimer,
       ClientEff.wsSend { type := "call_offer", targetUserId := some "u2", offer := some "O" }] ∧
    offerTimerFire ⟨initialCallState, none, false, true, false, false, true⟩ =
      ((endCall ⟨initialCallState, none, false, true, false, false, true⟩).1,
        (endCall ⟨initialCallState, none, false, true, false, false, true⟩).2 ++
          [ClientEff.alert "Call setup timed out. Please try again."]) :=
  c7_offer_timer_scope ⟨initialCallState, none, false, true, false, false, true⟩
    "u2" "O" rfl

/-- C8: an inbound `call_offer` while the call session is outgoing-pending
is dropped: the handler returns the state unchanged, creates no peer
connection and emits no effect. -/
theorem c8_offer_dropped_while_outgoing
    (st : ClientState) (m : WireMsg) (users : List String)
    (hty : m.type = "call_offer")
    (hout : st.callState.callType = some CallType.outgoing) :
    handleSignalingMessage st m users = (st, []) := by
  cases hf : m.fromUserId <;> cases hoff : m.offer <;>
    simp [handleSignalingMessage, hty, hf, hoff, hout]

/-- Witness for C8 at a concrete input: a mutual-call offer arriving while
outgoing-pending. -/
theorem c8_offer_dropped_while_outgoing_witness :
    handleSignalingMessage
        ⟨⟨true, some CallType.outgoing, some "u2", false, true, 0⟩,
          some ⟨some "O", none, []⟩, true, true, false, false, true⟩
        { type := "call_offer", fromUserId := some "u2", offer := some "P" } [] =
      (⟨⟨true, some CallType.outgoing, some "u2", false, true, 0⟩,
          some ⟨some "O", none, []⟩, true, true, false, false, true⟩, []) :=
  c8_offer_dropped_while_outgoing
    ⟨⟨true, some CallType.outgoing, some "u2", false, true, 0⟩,
      some ⟨some "O", none, []⟩, true, true, false, false, true⟩
    { type := "call_offer", fromUserId := some "u2", offer := some "P" } [] rfl rfl

/-- C9 counterexample: from a live call state, a single `rejectCall` sends
`call_end` twice — once itself and once more via the nested `endCall` —
refuting "at most one call_end per call regardless of teardown path". -/
theorem c9_counterexample :
    countCallEnd (rejectCall
        ⟨⟨true, some CallType.incoming, some "u1", false, true, 0⟩,
          some ⟨none, some "O", []⟩, false, true, true, false, true⟩).2 = 2 ∧
    ¬ (2 ≤ 1) := by
  exact ⟨rfl, by decide⟩

/-- C9 (amended): teardown is idempotent — after one `endCall` the state is
a fixed point and a second `endCall` or `rejectCall` sends no `call_end`;
a single `endCall` (the routine shared by the remote-end, error, timeout
and transport-failure paths) sends exactly one `call_end` to the
counterpart; but `rejectCall` sends two `call_end` messages in one
invocation (its own plus the one from the nested `endCall`). -/
theorem c9_teardown (st : ClientState) (u : String)
    (ho : st.callState.otherUser = some u) (hw : st.wsUp = true) :
    countCallEnd (rejectCall st).2 = 2 ∧
    countCallEnd (endCall st).2 = 1 ∧
    (endCall (endCall st).1).1 = (endCall st).1 ∧
    countCallEnd (endCall (endCall st).1).2 = 0 ∧
    countCallEnd (rejectCall (rejectCall st).1).2 = 0 := by
  have hone : countCallEnd (endCall st).2 = 1 := by
    simp [endCall, ho, hw, countCallEnd_append, countCallEnd_ite_single,
      countCallEnd_nil, countCallEnd_callEnd_single, isCallEndSend]
  have hzero : countCallEnd (endCall (endCall st).1).2 = 0 := by
    simp [endCall, initialCallState, countCallEnd_append,
      countCallEnd_ite_single, countCallEnd_nil, isCallEndSend]
  refine ⟨?_, hone, ?_, hzero, ?_⟩
  · simp [rejectCall, ho, hw, countCallEnd_append, hone,
      countCallEnd_callEnd_single, countCallEnd_cons_callEnd]
  · simp [endCall, initialCallState]
  · simp [rejectCall, endCall, initialCallState, countCallEnd_append,
      countCallEnd_ite_single, countCallEnd_nil, isCallEndSend]

/-- Witness for the amended C9 at a concrete input. -/
theorem c9_teardown_witness :
    countCallEnd (rejectCall
        ⟨⟨true, some CallType.active, some "u1", false, true, 0⟩,
          some ⟨some "L", some "R", []⟩, true, true, true, false, true⟩).2 = 2 ∧
    countCallEnd (endCall
        ⟨⟨true, some CallType.active, some "u1", false, true, 0⟩,
          some ⟨some "L", some "R", []⟩, true, true, true, false, true⟩).2 = 1 ∧
    (endCall (endCall
        ⟨⟨true, some CallType.active, some "u1", false, true, 0⟩,
          some ⟨some "L", some "R", []⟩, true, true, true, false, true⟩).1).1 =
      (endCall
        ⟨⟨true, some CallType.active, some "u1", false, true, 0⟩,
          some ⟨some "L", some "R", []⟩, true, true, true, false, true⟩).1 ∧
    countCallEnd (endCall (endCall
        ⟨⟨true, some CallType.active, some "u1", false, true, 0⟩,
          some ⟨some "L", some "R", []⟩, true, true, true, false, true⟩).1).2 = 0 ∧
    countCallEnd (rejectCall (rejectCall
        ⟨⟨true, some CallType.active, some "u1", false, true, 0⟩,
          some ⟨some "L", some "R", []⟩, true, true, true, false, true⟩).1).2 = 0 :=
  c9_teardown
    ⟨⟨true, some CallType.active, some "u1", false, true, 0⟩,
      some ⟨some "L", some "R", []⟩, true, true, true, false, true⟩
    "u1" rfl rfl

end ASSM
